import Mathlib

/-!
# The command/message bridge of the operator console (`internal/tui/handlers.go`)

Every command of `handlers.go` is a Go closure `func() tea.Msg` that talks to two
collaborators (the DBOS workflow engine and the report/issue store) and returns one
message.  The closures are embedded as finite interaction trees (`Prog`): a node is one
collaborator call together with the continuation that receives the call's outcome, a leaf
is the returned message.  `Prog.run` executes a tree against an arbitrary, possibly
stateful, collaborator (`Collab`) and records the calls that were made and the text
written to standard output.

Modelling conventions
* a Go `error` is `Option GoError` (`none` is `nil`);
* a Go call returning `(v, err)` is `Except GoError V`: the source reads `v` only on the
  `err == nil` branch;
* a Go slice is a `List` (the `nil` slice and the empty slice are both `[]`), a pointer
  that the source itself leaves `nil` is an `Option`;
* `int` values are only passed along, never computed with, so they are `Int`;
* the types that `handlers.go` imports from packages outside the file
  (`dbos.DBOSContext`, `dbos.WorkflowStatus`, `dbos.StepInfo`, `*app.Report`,
  `*app.Issue`) are parameters, bundled in `Externals`.
-/

namespace Tui

/-! ## Go errors and the `fmt` helpers the file uses -/

/-- A Go error value: either an error made by a collaborator, known only through its
`Error()` text, or the `*fmt.wrapError` that `fmt.Errorf` builds for a `%w` verb. -/
inductive GoError where
  | external (text : String)
  | wrapError (msg : String) (err : GoError)
  deriving DecidableEq, Repr

/-- The method `Error()`. -/
def GoError.Error : GoError → String
  | .external text => text
  | .wrapError msg _ => msg

/-- The method `Unwrap()`, as `errors.Unwrap` sees it. -/
def GoError.Unwrap : GoError → Option GoError
  | .external _ => none
  | .wrapError _ err => some err

namespace fmt

/-- The call `fmt.Errorf(label + "%w", err)`: every format string of the file is a
literal text followed by the single verb `%w`; `label` is that literal text. -/
def Errorf (label : String) (err : GoError) : GoError :=
  .wrapError (label ++ err.Error) err

/-- The call `fmt.Sprintf(label + "%s", s)`. -/
def Sprintf (label : String) (s : String) : String :=
  label ++ s

end fmt

/-! ## Types imported by the file -/

/-- The types `handlers.go` takes from the `dbos` and `app` packages, and the `%v`
rendering of a workflow list that `fmt.Printf` uses. -/
structure Externals where
  DBOSContext : Type
  WorkflowStatus : Type
  StepInfo : Type
  Report : Type
  Issue : Type
  formatWorkflows : List WorkflowStatus → String

/-- The struct `app.IssueWorkflowInput`, built by the file with its field `ReportID`. -/
structure IssueWorkflowInput where
  ReportID : Int
  deriving DecidableEq, Repr

/-- A `dbos.WorkflowHandle`; `GetWorkflowID()` reads its identifier. -/
structure WorkflowHandle where
  workflowID : String
  deriving DecidableEq, Repr

/-- The method `GetWorkflowID()`. -/
def WorkflowHandle.GetWorkflowID (h : WorkflowHandle) : String := h.workflowID

/-- The workflow function handed to `dbos.RunWorkflow`, with its input. -/
inductive Workflow where
  | ScanWorkflow (input : String)
  | IssueWorkflow (input : IssueWorkflowInput)
  deriving DecidableEq, Repr

/-- The receiver `App`, restricted to the two fields the commands read. -/
structure App (X : Externals) where
  dbosCtx : X.DBOSContext
  selectedWorkflowID : String

/-! ## Messages -/

namespace tea

/-- A `tea.Msg` is an `interface{}`: `nil`, or one of the concrete values the commands
return (a workflow list, a step list, or one of the message structs of the file). -/
inductive Msg (X : Externals) where
  | nil
  | workflows (ws : List X.WorkflowStatus)
  | steps (ss : List X.StepInfo)
  | errorMsg (err : Option GoError)
  | scanResultMsg (result : List String) (err : Option GoError)
  | reportsMsg (reports : List X.Report) (err : Option GoError)
  | issueWorkflowStartedMsg (workflowID : String) (err : Option GoError)
  | issueApprovalReadyMsg (issue : Option X.Issue) (err : Option GoError)
  | issueResultMsg (result : String) (err : Option GoError)
  | issuesMsg (issues : List X.Issue) (err : Option GoError)
  | issueLoadedMsg (issue : Option X.Issue) (err : Option GoError)

end tea

/-! ## Collaborator calls and interaction trees -/

/-- One call to a collaborator: the workflow gateway (`dbos.*`, `handle.GetResult`) or
the store accessor (`app.Get*`). -/
inductive Call (X : Externals) where
  | ListWorkflows (ctx : X.DBOSContext)
  | RunWorkflow (ctx : X.DBOSContext) (wf : Workflow)
  | GetResult (handle : WorkflowHandle)
  | GetWorkflowSteps (ctx : X.DBOSContext) (workflowID : String)
  | Send (ctx : X.DBOSContext) (destinationID : String) (message : String) (topic : String)
  | GetReportsPendingForApproval
  | GetAllIssues
  | GetIssueByID (issueID : Int)

/-- The outcome type of each call. -/
@[reducible] def Call.Outcome {X : Externals} : Call X → Type
  | .ListWorkflows _ => Except GoError (List X.WorkflowStatus)
  | .RunWorkflow _ _ => Except GoError WorkflowHandle
  | .GetResult _ => Except GoError (List String)
  | .GetWorkflowSteps _ _ => Except GoError (List X.StepInfo)
  | .Send _ _ _ _ => Option GoError
  | .GetReportsPendingForApproval => Except GoError (List X.Report)
  | .GetAllIssues => Except GoError (List X.Issue)
  | .GetIssueByID _ => Except GoError (Option X.Issue)

/-- A command body: a tree of collaborator calls and writes to standard output that ends
in a returned value. -/
inductive Prog (X : Externals) (α : Type) where
  | ret (a : α)
  | print (text : String) (next : Prog X α)
  | call (c : Call X) (next : c.Outcome → Prog X α)

/-- Sequencing of command bodies. -/
def Prog.bind {X : Externals} {α β : Type} : Prog X α → (α → Prog X β) → Prog X β
  | .ret a, f => f a
  | .print text next, f => .print text (next.bind f)
  | .call c next, f => .call c (fun r => (next r).bind f)

instance {X : Externals} : Monad (Prog X) where
  pure := Prog.ret
  bind := Prog.bind

/-- A collaborator with internal state `σ`: it answers every call and moves to a new
state.  Nothing is assumed about its answers. -/
abbrev Collab (X : Externals) (σ : Type) : Type := (c : Call X) → σ → c.Outcome × σ

/-- What one execution of a command body leaves behind. -/
structure Run (X : Externals) (σ α : Type) where
  result : α
  state : σ
  calls : List (Call X)
  stdout : List String

/-- Execute a command body against a collaborator, from the collaborator state `s`. -/
def Prog.run {X : Externals} {σ α : Type} (o : Collab X σ) : Prog X α → σ → Run X σ α
  | .ret a, s => { result := a, state := s, calls := [], stdout := [] }
  | .print text next, s =>
      let r := next.run o s
      { r with stdout := text :: r.stdout }
  | .call c next, s =>
      let r := (next (o c s).1).run o (o c s).2
      { r with calls := c :: r.calls }

/-- A `tea.Cmd`: a deferred body that returns a message. -/
abbrev tea.Cmd (X : Externals) : Type := Prog X (tea.Msg X)

/-! ### The primitive operations, under their Go names -/

namespace fmt

/-- The call `fmt.Println(text)`. -/
def Println {X : Externals} (text : String) : Prog X Unit :=
  .print (text ++ "\n") (.ret ())

/-- The call `fmt.Printf(label + "%v\n", v)`, given the `%v` rendering of `v`. -/
def Printf {X : Externals} (label : String) (rendered : String) : Prog X Unit :=
  .print (label ++ rendered ++ "\n") (.ret ())

end fmt

namespace dbos

/-- The call `dbos.ListWorkflows(ctx)`. -/
def ListWorkflows {X : Externals} (ctx : X.DBOSContext) :
    Prog X (Except GoError (List X.WorkflowStatus)) :=
  .call (.ListWorkflows ctx) .ret

/-- The call `dbos.RunWorkflow(ctx, fn, input)`. -/
def RunWorkflow {X : Externals} (ctx : X.DBOSContext) (wf : Workflow) :
    Prog X (Except GoError WorkflowHandle) :=
  .call (.RunWorkflow ctx wf) .ret

/-- The call `handle.GetResult()` on the handle of a scan workflow. -/
def GetResult {X : Externals} (handle : WorkflowHandle) :
    Prog X (Except GoError (List String)) :=
  .call (.GetResult handle) .ret

/-- The call `dbos.GetWorkflowSteps(ctx, workflowID)`. -/
def GetWorkflowSteps {X : Externals} (ctx : X.DBOSContext) (workflowID : String) :
    Prog X (Except GoError (List X.StepInfo)) :=
  .call (.GetWorkflowSteps ctx workflowID) .ret

/-- The call `dbos.Send(ctx, destinationID, message, topic)`. -/
def Send {X : Externals} (ctx : X.DBOSContext) (destinationID message topic : String) :
    Prog X (Option GoError) :=
  .call (.Send ctx destinationID message topic) .ret

end dbos

namespace app

/-- The call `app.GetReportsPendingForApproval()`. -/
def GetReportsPendingForApproval {X : Externals} : Prog X (Except GoError (List X.Report)) :=
  .call .GetReportsPendingForApproval .ret

/-- The call `app.GetAllIssues()`. -/
def GetAllIssues {X : Externals} : Prog X (Except GoError (List X.Issue)) :=
  .call .GetAllIssues .ret

/-- The call `app.GetIssueByID(issueID)`. -/
def GetIssueByID {X : Externals} (issueID : Int) : Prog X (Except GoError (Option X.Issue)) :=
  .call (.GetIssueByID issueID) .ret

end app

/-! ## The eight commands of `handlers.go` -/

/-- The command `App.listWorkflows`. -/
def listWorkflows {X : Externals} (m : App X) : tea.Cmd X := do
  fmt.Println "listing workflows"
  match ← dbos.ListWorkflows m.dbosCtx with
  | .error err =>
    fmt.Printf "error listing workflows: " err.Error
    return .errorMsg (some (fmt.Errorf "error listing workflows: " err))
  | .ok workflows =>
    fmt.Printf "workflows: " (X.formatWorkflows workflows)
    return .workflows workflows

/-- The command `App.startScanWorkflow`. -/
def startScanWorkflow {X : Externals} (m : App X) : tea.Cmd X := do
  match ← dbos.RunWorkflow m.dbosCtx (.ScanWorkflow "") with
  | .error err =>
    return .scanResultMsg [] (some (fmt.Errorf "failed to start scan workflow: " err))
  | .ok handle =>
    match ← dbos.GetResult handle with
    | .error err =>
      return .scanResultMsg [] (some (fmt.Errorf "scan workflow failed: " err))
    | .ok result =>
      return .scanResultMsg result none

/-- The command `App.getWorkflowSteps`. -/
def getWorkflowSteps {X : Externals} (m : App X) : tea.Cmd X := do
  match ← dbos.GetWorkflowSteps m.dbosCtx m.selectedWorkflowID with
  | .error err =>
    return .errorMsg (some (fmt.Errorf "error getting workflow steps: " err))
  | .ok steps =>
    return .steps steps

/-- The command `App.listReportsPendingForApproval`. -/
def listReportsPendingForApproval {X : Externals} (_m : App X) : tea.Cmd X := do
  match ← app.GetReportsPendingForApproval with
  | .error err =>
    return .errorMsg (some (fmt.Errorf "error listing reports pending for approval: " err))
  | .ok reports =>
    return .reportsMsg reports none

/-- The command `App.startIssueWorkflow`. -/
def startIssueWorkflow {X : Externals} (m : App X) (reportID : Int) : tea.Cmd X := do
  let input : IssueWorkflowInput := { ReportID := reportID }
  match ← dbos.RunWorkflow m.dbosCtx (.IssueWorkflow input) with
  | .error err =>
    return .issueWorkflowStartedMsg "" (some (fmt.Errorf "failed to start issue workflow: " err))
  | .ok handle =>
    let workflowID := handle.GetWorkflowID
    return .issueWorkflowStartedMsg workflowID none

/-- The command `App.sendIssueApproval`. -/
def sendIssueApproval {X : Externals} (m : App X) (workflowID : String) (approved : Bool) :
    tea.Cmd X := do
  let status := if approved then "approved" else "rejected"
  match ← dbos.Send m.dbosCtx workflowID status "ISSUE_APPROVAL" with
  | some err =>
    return .issueResultMsg "" (some (fmt.Errorf "failed to send approval: " err))
  | none =>
    return .issueResultMsg (fmt.Sprintf "Issue " status) none

/-- The command `App.listAllIssues`. -/
def listAllIssues {X : Externals} (_m : App X) : tea.Cmd X := do
  match ← app.GetAllIssues with
  | .error err =>
    return .errorMsg (some (fmt.Errorf "error listing issues: " err))
  | .ok issues =>
    return .issuesMsg issues none

/-- The command `App.loadIssueByID`. -/
def loadIssueByID {X : Externals} (_m : App X) (issueID : Int) : tea.Cmd X := do
  match ← app.GetIssueByID issueID with
  | .error err =>
    return .issueLoadedMsg none (some (fmt.Errorf "error loading issue: " err))
  | .ok issue =>
    return .issueLoadedMsg issue none


/-! ## Two concrete collaborators

They instantiate the imported types and are used to run the commands on concrete inputs. -/

/-- Plain stand-ins for the imported types: workflow summaries and steps are names,
reports and issues are their integer identifiers. -/
@[reducible] def plainTypes : Externals where
  DBOSContext := Unit
  WorkflowStatus := String
  StepInfo := String
  Report := Int
  Issue := Int
  formatWorkflows := fun ws => "[" ++ String.intercalate " " ws ++ "]"

/-- State of the in-memory collaborator: the workflows that wait for an approval signal,
and the stored reports and issues. -/
structure Desk where
  waiting : List String
  reports : List Int
  issues : List Int
  deriving DecidableEq, Repr

/-- An in-memory engine and store.  An issue workflow is started under the identifier
`"wf-1"` and waits; a signal is delivered only to a waiting workflow. -/
def desk : Collab plainTypes Desk
  | .ListWorkflows _, d => (.ok d.waiting, d)
  | .RunWorkflow _ (.ScanWorkflow _), d => (.ok { workflowID := "scan-1" }, d)
  | .RunWorkflow _ (.IssueWorkflow _), d =>
      (.ok { workflowID := "wf-1" }, { d with waiting := "wf-1" :: d.waiting })
  | .GetResult _, d => (.ok ["open port 22"], d)
  | .GetWorkflowSteps _ workflowID, d =>
      if workflowID ∈ d.waiting then (.ok ["createIssue", "awaitApproval"], d)
      else (.error (.external "workflow not found"), d)
  | .Send _ destinationID _ _, d =>
      if destinationID ∈ d.waiting then (none, { d with waiting := d.waiting.erase destinationID })
      else (some (.external "workflow not found"), d)
  | .GetReportsPendingForApproval, d => (.ok d.reports, d)
  | .GetAllIssues, d => (.ok d.issues, d)
  | .GetIssueByID issueID, d =>
      if issueID ∈ d.issues then (.ok (some issueID), d)
      else (.error (.external "issue not found"), d)

/-- The empty desk: nothing is waiting, nothing is stored. -/
def Desk.empty : Desk := { waiting := [], reports := [], issues := [] }

/-- A collaborator that is down: every call fails with the same error, except that a
started scan workflow can be awaited (and then fails). -/
def outage : Collab plainTypes Unit
  | .ListWorkflows _, u => (.error (.external "connection refused"), u)
  | .RunWorkflow _ _, u => (.error (.external "connection refused"), u)
  | .GetResult _, u => (.error (.external "connection refused"), u)
  | .GetWorkflowSteps _ _, u => (.error (.external "connection refused"), u)
  | .Send _ _ _ _, u => (some (.external "connection refused"), u)
  | .GetReportsPendingForApproval, u => (.error (.external "connection refused"), u)
  | .GetAllIssues, u => (.error (.external "connection refused"), u)
  | .GetIssueByID _, u => (.error (.external "connection refused"), u)

/-- The receiver used on the concrete collaborators. -/
def console : App plainTypes := { dbosCtx := (), selectedWorkflowID := "wf-1" }

/-! ## Execution equations -/

section theorems

variable {X : Externals} {σ : Type}

@[simp] theorem Prog.run_ret {α : Type} (o : Collab X σ) (a : α) (s : σ) :
    (Prog.ret a : Prog X α).run o s = { result := a, state := s, calls := [], stdout := [] } :=
  rfl

@[simp] theorem Prog.run_print {α : Type} (o : Collab X σ) (text : String) (next : Prog X α)
    (s : σ) :
    (Prog.print text next).run o s =
      { next.run o s with stdout := text :: (next.run o s).stdout } :=
  rfl

@[simp] theorem Prog.run_call {α : Type} (o : Collab X σ) (c : Call X)
    (next : c.Outcome → Prog X α) (s : σ) :
    (Prog.call c next).run o s =
      { (next (o c s).1).run o (o c s).2 with
        calls := c :: ((next (o c s).1).run o (o c s).2).calls } :=
  rfl

/-! ## Starting an issue workflow -/

/-- C1: whatever the collaborator answers, `startIssueWorkflow reportID` makes exactly one
call, the start of the issue workflow with `ReportID = reportID`; it never calls
`GetResult`; when the start succeeds with a handle it returns
`issueWorkflowStartedMsg{workflowID: handle.GetWorkflowID(), err: nil}`; and a collaborator
that answers start calls the same way but differs anywhere else (in particular in what
`GetResult` would say) yields the same run. -/
theorem startIssueWorkflow_returns_handle_without_awaiting (m : App X) (reportID : Int)
    (o : Collab X σ) (s : σ) :
    ((startIssueWorkflow m reportID).run o s).calls =
        [.RunWorkflow m.dbosCtx (.IssueWorkflow { ReportID := reportID })] ∧
    (∀ handle, Call.GetResult handle ∉ ((startIssueWorkflow m reportID).run o s).calls) ∧
    (∀ handle,
        (o (.RunWorkflow m.dbosCtx (.IssueWorkflow { ReportID := reportID })) s).1 = .ok handle →
        ((startIssueWorkflow m reportID).run o s).result =
          .issueWorkflowStartedMsg handle.GetWorkflowID none) ∧
    (∀ o' : Collab X σ,
        (∀ ctx wf t, o' (.RunWorkflow ctx wf) t = o (.RunWorkflow ctx wf) t) →
        (startIssueWorkflow m reportID).run o' s = (startIssueWorkflow m reportID).run o s) := by
  refine ⟨?_, ?_, ?_, ?_⟩
  · simp [startIssueWorkflow, dbos.RunWorkflow, bind, Prog.bind, pure]
    cases (o (.RunWorkflow m.dbosCtx (.IssueWorkflow { ReportID := reportID })) s).1 <;> simp
  · intro handle
    simp [startIssueWorkflow, dbos.RunWorkflow, bind, Prog.bind, pure]
    cases (o (.RunWorkflow m.dbosCtx (.IssueWorkflow { ReportID := reportID })) s).1 <;> simp
  · intro handle h
    simp [startIssueWorkflow, dbos.RunWorkflow, bind, Prog.bind, pure, h]
  · intro o' h
    simp [startIssueWorkflow, dbos.RunWorkflow, bind, Prog.bind, pure, h]
    cases (o (.RunWorkflow m.dbosCtx (.IssueWorkflow { ReportID := reportID })) s).1 <;> simp

/-- C1, on the in-memory engine: report `42` on an empty desk starts workflow `"wf-1"`. -/
theorem startIssueWorkflow_returns_handle_without_awaiting_witness :
    (desk (.RunWorkflow console.dbosCtx (.IssueWorkflow { ReportID := 42 })) Desk.empty).1
        = .ok { workflowID := "wf-1" } ∧
    ((startIssueWorkflow console 42).run desk Desk.empty).result =
        .issueWorkflowStartedMsg "wf-1" none :=
  ⟨rfl, (startIssueWorkflow_returns_handle_without_awaiting console 42 desk Desk.empty).2.2.1
    { workflowID := "wf-1" } rfl⟩

/-! ## Sending the approval signal -/

/-- C2: when the send call succeeds, `sendIssueApproval w approved` returns
`issueResultMsg{result: "Issue approved", err: nil}` for `approved = true` and
`issueResultMsg{result: "Issue rejected", err: nil}` for `approved = false`. -/
theorem sendIssueApproval_confirms_delivery (m : App X) (w : String) (approved : Bool)
    (o : Collab X σ) (s : σ)
    (h : (o (.Send m.dbosCtx w (if approved then "approved" else "rejected")
            "ISSUE_APPROVAL") s).1 = none) :
    ((sendIssueApproval m w approved).run o s).result =
      .issueResultMsg (if approved then "Issue approved" else "Issue rejected") none := by
  simp only [sendIssueApproval, dbos.Send, bind, Prog.bind, pure, Prog.run_call, h,
    Prog.run_ret]
  cases approved <;> rfl

/-- C2, scenario 1 on the in-memory engine: after report `42` started `"wf-1"`, approving
`"wf-1"` returns `"Issue approved"`, rejecting it returns `"Issue rejected"`. -/
theorem sendIssueApproval_confirms_delivery_witness :
    ((sendIssueApproval console "wf-1" true).run desk
        ((startIssueWorkflow console 42).run desk Desk.empty).state).result =
      .issueResultMsg "Issue approved" none :=
  sendIssueApproval_confirms_delivery console "wf-1" true desk
    ((startIssueWorkflow console 42).run desk Desk.empty).state rfl

/-- C3: when the send call fails with `e`, `sendIssueApproval w approved` returns an
`issueResultMsg` whose `result` is the empty string and whose `err` is non-nil, unwraps
to `e` and reads `"failed to send approval: "` followed by the text of `e`. -/
theorem sendIssueApproval_reports_undelivered (m : App X) (w : String) (approved : Bool)
    (o : Collab X σ) (s : σ) (e : GoError)
    (h : (o (.Send m.dbosCtx w (if approved then "approved" else "rejected")
            "ISSUE_APPROVAL") s).1 = some e) :
    ∃ err : GoError,
      ((sendIssueApproval m w approved).run o s).result = .issueResultMsg "" (some err) ∧
      err.Unwrap = some e ∧
      err.Error = "failed to send approval: " ++ e.Error := by
  refine ⟨fmt.Errorf "failed to send approval: " e, ?_, rfl, rfl⟩
  simp only [sendIssueApproval, dbos.Send, bind, Prog.bind, pure, Prog.run_call, h,
    Prog.run_ret]

/-- C3, scenario 2 on the in-memory engine: nothing waits under `"wf-missing"`, the send
fails and the message carries the wrapped delivery error and no confirmation. -/
theorem sendIssueApproval_reports_undelivered_witness :
    ∃ err : GoError,
      ((sendIssueApproval console "wf-missing" true).run desk Desk.empty).result =
        .issueResultMsg "" (some err) ∧
      err.Unwrap = some (.external "workflow not found") ∧
      err.Error = "failed to send approval: " ++ (GoError.external "workflow not found").Error :=
  sendIssueApproval_reports_undelivered console "wf-missing" true desk Desk.empty
    (.external "workflow not found") rfl

/-- C4: one invocation of `sendIssueApproval w approved` makes exactly one collaborator
call, whatever the answer: a send addressed to `w`, with payload `"approved"` or
`"rejected"` according to the flag, on topic `"ISSUE_APPROVAL"`; the collaborator is left
in the state that single call produced; and a second invocation, run from that state,
makes the same single call again. -/
theorem sendIssueApproval_sends_once (m : App X) (w : String) (approved : Bool)
    (o : Collab X σ) (s : σ) :
    ((sendIssueApproval m w approved).run o s).calls =
        [.Send m.dbosCtx w (if approved then "approved" else "rejected") "ISSUE_APPROVAL"] ∧
    ((sendIssueApproval m w approved).run o s).state =
        (o (.Send m.dbosCtx w (if approved then "approved" else "rejected")
          "ISSUE_APPROVAL") s).2 ∧
    ((sendIssueApproval m w approved).run o
        ((sendIssueApproval m w approved).run o s).state).calls =
        [.Send m.dbosCtx w (if approved then "approved" else "rejected") "ISSUE_APPROVAL"] := by
  have key : ∀ t : σ,
      ((sendIssueApproval m w approved).run o t).calls =
          [.Send m.dbosCtx w (if approved then "approved" else "rejected") "ISSUE_APPROVAL"] ∧
      ((sendIssueApproval m w approved).run o t).state =
          (o (.Send m.dbosCtx w (if approved then "approved" else "rejected")
            "ISSUE_APPROVAL") t).2 := by
    intro t
    simp only [sendIssueApproval, dbos.Send, bind, Prog.bind, pure, Prog.run_call]
    cases (o (.Send m.dbosCtx w (if approved then "approved" else "rejected")
        "ISSUE_APPROVAL") t).1 <;> simp
  exact ⟨(key s).1, (key s).2, (key _).1⟩

/-! ## The scan command -/

/-- C5: `startScanWorkflow` always returns a `scanResultMsg`.  It is a failure message
(`err` non-nil, `result` empty) exactly when the start call fails or awaiting the result
of the started workflow fails; otherwise it is `scanResultMsg{result: findings, err: nil}`
for the findings the workflow returned; and no returned `scanResultMsg` has a non-nil
`err` together with a non-empty `result`. -/
theorem startScanWorkflow_failure_or_findings (m : App X) (o : Collab X σ) (s : σ) :
    ((∃ err : GoError,
        ((startScanWorkflow m).run o s).result = .scanResultMsg [] (some err)) ↔
      ((∃ e, (o (.RunWorkflow m.dbosCtx (.ScanWorkflow "")) s).1 = .error e) ∨
       (∃ handle e, (o (.RunWorkflow m.dbosCtx (.ScanWorkflow "")) s).1 = .ok handle ∧
          (o (.GetResult handle) (o (.RunWorkflow m.dbosCtx (.ScanWorkflow "")) s).2).1
            = .error e))) ∧
    (∀ handle findings,
        (o (.RunWorkflow m.dbosCtx (.ScanWorkflow "")) s).1 = .ok handle →
        (o (.GetResult handle) (o (.RunWorkflow m.dbosCtx (.ScanWorkflow "")) s).2).1
            = .ok findings →
        ((startScanWorkflow m).run o s).result = .scanResultMsg findings none) ∧
    (∃ result err, ((startScanWorkflow m).run o s).result = .scanResultMsg result err ∧
        (err ≠ none → result = [])) := by
  simp only [startScanWorkflow, dbos.RunWorkflow, dbos.GetResult, bind, Prog.bind, pure,
    Prog.run_call]
  cases h₁ : (o (.RunWorkflow m.dbosCtx (.ScanWorkflow "")) s).1 with
  | error e =>
    simp
    exact ⟨[], _, ⟨rfl, rfl⟩, fun _ => rfl⟩
  | ok handle =>
    simp only [Prog.bind, Prog.run_call]
    cases h₂ : (o (.GetResult handle) (o (.RunWorkflow m.dbosCtx (.ScanWorkflow "")) s).2).1 with
    | error e =>
      simp [h₂]
      refine ⟨⟨handle, rfl, e, h₂⟩, ?_, ⟨[], _, ⟨rfl, rfl⟩, fun _ => rfl⟩⟩
      intro handle' findings hh hf
      cases hh
      rw [h₂] at hf
      cases hf
    | ok findings =>
      simp [h₂]
      refine ⟨?_, ?_, ⟨findings, none, ⟨rfl, rfl⟩, fun hne => absurd rfl hne⟩⟩
      · intro handle' hh e he
        cases hh
        rw [h₂] at he
        cases he
      · intro handle' findings' hh hf
        cases hh
        rw [h₂] at hf
        exact Except.ok.inj hf

/-- C5, on the concrete collaborators: on the in-memory engine the scan succeeds and the
message carries its findings; during an outage the start call fails and the message is
a failure. -/
theorem startScanWorkflow_failure_or_findings_witness :
    ((startScanWorkflow console).run desk Desk.empty).result =
        .scanResultMsg ["open port 22"] none ∧
    ∃ err : GoError,
      ((startScanWorkflow console).run outage ()).result = .scanResultMsg [] (some err) :=
  ⟨(startScanWorkflow_failure_or_findings console desk Desk.empty).2.1
      { workflowID := "scan-1" } ["open port 22"] rfl rfl,
   (startScanWorkflow_failure_or_findings console outage ()).1.mpr
      (Or.inl ⟨.external "connection refused", rfl⟩)⟩

/-! ## Failures of the single-call commands -/

/-- C6: for `listWorkflows`, `getWorkflowSteps`, `listReportsPendingForApproval`,
`listAllIssues` and `loadIssueByID`, when the command's call fails with `e` the returned
message (an `errorMsg`, for `loadIssueByID` an `issueLoadedMsg`) carries an error that
unwraps to `e`, whose text begins with the operation label and ends with `": "` followed
by the text of `e`. -/
theorem single_call_failures_are_labelled (m : App X) (issueID : Int) (o : Collab X σ)
    (s : σ) (e : GoError) :
    ((o (.ListWorkflows m.dbosCtx) s).1 = .error e →
      ∃ err : GoError, ((listWorkflows m).run o s).result = .errorMsg (some err) ∧
        err.Unwrap = some e ∧
        "error listing workflows".data <+: err.Error.data ∧
        (": " ++ e.Error).data <:+ err.Error.data) ∧
    ((o (.GetWorkflowSteps m.dbosCtx m.selectedWorkflowID) s).1 = .error e →
      ∃ err : GoError, ((getWorkflowSteps m).run o s).result = .errorMsg (some err) ∧
        err.Unwrap = some e ∧
        "error getting workflow steps".data <+: err.Error.data ∧
        (": " ++ e.Error).data <:+ err.Error.data) ∧
    ((o .GetReportsPendingForApproval s).1 = .error e →
      ∃ err : GoError,
        ((listReportsPendingForApproval m).run o s).result = .errorMsg (some err) ∧
        err.Unwrap = some e ∧
        "error listing reports".data <+: err.Error.data ∧
        (": " ++ e.Error).data <:+ err.Error.data) ∧
    ((o .GetAllIssues s).1 = .error e →
      ∃ err : GoError, ((listAllIssues m).run o s).result = .errorMsg (some err) ∧
        err.Unwrap = some e ∧
        "error listing issues".data <+: err.Error.data ∧
        (": " ++ e.Error).data <:+ err.Error.data) ∧
    ((o (.GetIssueByID issueID) s).1 = .error e →
      ∃ err : GoError,
        ((loadIssueByID m issueID).run o s).result = .issueLoadedMsg none (some err) ∧
        err.Unwrap = some e ∧
        "error loading issue".data <+: err.Error.data ∧
        (": " ++ e.Error).data <:+ err.Error.data) := by
  refine ⟨?_, ?_, ?_, ?_, ?_⟩
  · intro h
    refine ⟨fmt.Errorf "error listing workflows: " e, ?_, rfl,
      ⟨": ".data ++ e.Error.data, rfl⟩, ⟨"error listing workflows".data, rfl⟩⟩
    simp [listWorkflows, fmt.Println, fmt.Printf, dbos.ListWorkflows, bind, Prog.bind, pure, h]
  · intro h
    refine ⟨fmt.Errorf "error getting workflow steps: " e, ?_, rfl,
      ⟨": ".data ++ e.Error.data, rfl⟩, ⟨"error getting workflow steps".data, rfl⟩⟩
    simp [getWorkflowSteps, dbos.GetWorkflowSteps, bind, Prog.bind, pure, h]
  · intro h
    refine ⟨fmt.Errorf "error listing reports pending for approval: " e, ?_, rfl,
      ⟨" pending for approval: ".data ++ e.Error.data, rfl⟩,
      ⟨"error listing reports pending for approval".data, rfl⟩⟩
    simp [listReportsPendingForApproval, app.GetReportsPendingForApproval, bind, Prog.bind,
      pure, h]
  · intro h
    refine ⟨fmt.Errorf "error listing issues: " e, ?_, rfl,
      ⟨": ".data ++ e.Error.data, rfl⟩, ⟨"error listing issues".data, rfl⟩⟩
    simp [listAllIssues, app.GetAllIssues, bind, Prog.bind, pure, h]
  · intro h
    refine ⟨fmt.Errorf "error loading issue: " e, ?_, rfl,
      ⟨": ".data ++ e.Error.data, rfl⟩, ⟨"error loading issue".data, rfl⟩⟩
    simp [loadIssueByID, app.GetIssueByID, bind, Prog.bind, pure, h]

/-- C6, during an outage: the failed pending-report lookup comes back as
`errorMsg` reading `"error listing reports pending for approval: connection refused"`. -/
theorem single_call_failures_are_labelled_witness :
    ∃ err : GoError,
      ((listReportsPendingForApproval console).run outage ()).result = .errorMsg (some err) ∧
      err.Unwrap = some (.external "connection refused") ∧
      "error listing reports".data <+: err.Error.data ∧
      (": " ++ (GoError.external "connection refused").Error).data <:+ err.Error.data :=
  (single_call_failures_are_labelled console 7 outage ()
    (.external "connection refused")).2.2.1 rfl

/-- Besides returning the `errorMsg`, a failing `listWorkflows` logs the failure: its
standard output is the line `listing workflows` followed by the line
`error listing workflows: ` with the text of `e`. -/
theorem listWorkflows_failure_is_also_logged (m : App X) (o : Collab X σ) (s : σ)
    (e : GoError) (h : (o (.ListWorkflows m.dbosCtx) s).1 = .error e) :
    ((listWorkflows m).run o s).stdout =
      ["listing workflows" ++ "\n", "error listing workflows: " ++ e.Error ++ "\n"] := by
  simp [listWorkflows, fmt.Println, fmt.Printf, dbos.ListWorkflows, bind, Prog.bind, pure, h]

/-! ## One message per invocation -/

/-- C7: each of the eight commands, for every choice of its captured parameters and
every collaborator in every state, runs to completion after one or two collaborator calls
and returns a message that is not the `nil` interface value: one invocation, one
message. -/
theorem every_command_yields_one_message (m : App X) (reportID issueID : Int) (w : String)
    (approved : Bool) (o : Collab X σ) (s : σ) :
    ∀ cmd ∈ [listWorkflows m, startScanWorkflow m, getWorkflowSteps m,
        listReportsPendingForApproval m, startIssueWorkflow m reportID,
        sendIssueApproval m w approved, listAllIssues m, loadIssueByID m issueID],
      (cmd.run o s).result ≠ .nil ∧
      1 ≤ (cmd.run o s).calls.length ∧ (cmd.run o s).calls.length ≤ 2 := by
  intro cmd hmem
  simp only [List.mem_cons, List.mem_singleton, List.not_mem_nil, or_false] at hmem
  rcases hmem with rfl | rfl | rfl | rfl | rfl | rfl | rfl | rfl
  · simp only [listWorkflows, fmt.Println, fmt.Printf, dbos.ListWorkflows, bind, Prog.bind,
      pure, Prog.run_print, Prog.run_call]
    cases (o (.ListWorkflows m.dbosCtx) s).1 <;> simp [Prog.bind]
  · simp only [startScanWorkflow, dbos.RunWorkflow, dbos.GetResult, bind, Prog.bind, pure,
      Prog.run_call]
    cases (o (.RunWorkflow m.dbosCtx (.ScanWorkflow "")) s).1 with
    | error e => simp
    | ok handle =>
      simp only [Prog.bind, Prog.run_call]
      cases (o (.GetResult handle) (o (.RunWorkflow m.dbosCtx (.ScanWorkflow "")) s).2).1 <;>
        simp
  · simp only [getWorkflowSteps, dbos.GetWorkflowSteps, bind, Prog.bind, pure, Prog.run_call]
    cases (o (.GetWorkflowSteps m.dbosCtx m.selectedWorkflowID) s).1 <;> simp
  · simp only [listReportsPendingForApproval, app.GetReportsPendingForApproval, bind,
      Prog.bind, pure, Prog.run_call]
    cases (o .GetReportsPendingForApproval s).1 <;> simp
  · simp only [startIssueWorkflow, dbos.RunWorkflow, bind, Prog.bind, pure, Prog.run_call]
    cases (o (.RunWorkflow m.dbosCtx (.IssueWorkflow { ReportID := reportID })) s).1 <;> simp
  · simp only [sendIssueApproval, dbos.Send, bind, Prog.bind, pure, Prog.run_call]
    cases (o (.Send m.dbosCtx w (if approved then "approved" else "rejected")
        "ISSUE_APPROVAL") s).1 <;> simp
  · simp only [listAllIssues, app.GetAllIssues, bind, Prog.bind, pure, Prog.run_call]
    cases (o .GetAllIssues s).1 <;> simp
  · simp only [loadIssueByID, app.GetIssueByID, bind, Prog.bind, pure, Prog.run_call]
    cases (o (.GetIssueByID issueID) s).1 <;> simp

/-- C7, during an outage: the scan command still returns a message, after its one failed
start call. -/
theorem every_command_yields_one_message_witness :
    ((startScanWorkflow console).run outage ()).result ≠ .nil ∧
    1 ≤ ((startScanWorkflow console).run outage ()).calls.length ∧
    ((startScanWorkflow console).run outage ()).calls.length ≤ 2 :=
  every_command_yields_one_message console 42 7 "wf-1" true outage ()
    (startScanWorkflow console) (by simp)

/-! ## Listing commands -/

/-- C8: when the pending-approval lookup succeeds with the reports `rs`,
`listReportsPendingForApproval` returns `reportsMsg{reports: rs, err: nil}`: the same
list, unchanged. -/
theorem listReportsPendingForApproval_passes_reports_through (m : App X) (o : Collab X σ)
    (s : σ) (rs : List X.Report) (h : (o .GetReportsPendingForApproval s).1 = .ok rs) :
    ((listReportsPendingForApproval m).run o s).result = .reportsMsg rs none := by
  simp [listReportsPendingForApproval, app.GetReportsPendingForApproval, bind, Prog.bind,
    pure, h]

/-- C8, scenario 3 on the in-memory store: with no stored report the command returns
`reportsMsg{reports: [], err: nil}`. -/
theorem listReportsPendingForApproval_passes_reports_through_witness :
    ((listReportsPendingForApproval console).run desk Desk.empty).result =
      .reportsMsg [] none :=
  listReportsPendingForApproval_passes_reports_through console desk Desk.empty [] rfl

/-- C9: if the collaborator answers the listing call in state `s₂` as it did in state
`s₁`, then `listWorkflows` (respectively `listAllIssues`) returns the same message in
both invocations; a successful answer is returned as it is, in the same order; and the
only state an invocation leaves behind is the collaborator's own, after that one call. -/
theorem listing_twice_gives_equal_messages (m : App X) (o : Collab X σ) (s₁ s₂ : σ) :
    ((o (.ListWorkflows m.dbosCtx) s₁).1 = (o (.ListWorkflows m.dbosCtx) s₂).1 →
      ((listWorkflows m).run o s₁).result = ((listWorkflows m).run o s₂).result) ∧
    ((o .GetAllIssues s₁).1 = (o .GetAllIssues s₂).1 →
      ((listAllIssues m).run o s₁).result = ((listAllIssues m).run o s₂).result) ∧
    (∀ ws, (o (.ListWorkflows m.dbosCtx) s₁).1 = .ok ws →
      ((listWorkflows m).run o s₁).result = .workflows ws) ∧
    (∀ issues, (o .GetAllIssues s₁).1 = .ok issues →
      ((listAllIssues m).run o s₁).result = .issuesMsg issues none) ∧
    ((listWorkflows m).run o s₁).state = (o (.ListWorkflows m.dbosCtx) s₁).2 ∧
    ((listAllIssues m).run o s₁).state = (o .GetAllIssues s₁).2 := by
  refine ⟨?_, ?_, ?_, ?_, ?_, ?_⟩
  · intro h
    simp only [listWorkflows, fmt.Println, fmt.Printf, dbos.ListWorkflows, bind, Prog.bind,
      pure, Prog.run_print, Prog.run_call, h]
    cases (o (.ListWorkflows m.dbosCtx) s₂).1 <;> simp [Prog.bind]
  · intro h
    simp only [listAllIssues, app.GetAllIssues, bind, Prog.bind, pure, Prog.run_call, h]
    cases (o .GetAllIssues s₂).1 <;> simp
  · intro ws h
    simp [listWorkflows, fmt.Println, fmt.Printf, dbos.ListWorkflows, bind, Prog.bind,
      pure, h]
  · intro issues h
    simp [listAllIssues, app.GetAllIssues, bind, Prog.bind, pure, h]
  · simp only [listWorkflows, fmt.Println, fmt.Printf, dbos.ListWorkflows, bind, Prog.bind,
      pure, Prog.run_print, Prog.run_call]
    cases (o (.ListWorkflows m.dbosCtx) s₁).1 <;> simp [Prog.bind]
  · simp only [listAllIssues, app.GetAllIssues, bind, Prog.bind, pure, Prog.run_call]
    cases (o .GetAllIssues s₁).1 <;> simp

/-- C9, on the in-memory engine: listing the workflows a second time, from the state the
first listing left, gives the same message. -/
theorem listing_twice_gives_equal_messages_witness :
    ((listWorkflows console).run desk
        ((startIssueWorkflow console 42).run desk Desk.empty).state).result =
    ((listWorkflows console).run desk
        ((listWorkflows console).run desk
          ((startIssueWorkflow console 42).run desk Desk.empty).state).state).result :=
  (listing_twice_gives_equal_messages console desk
    ((startIssueWorkflow console 42).run desk Desk.empty).state
    ((listWorkflows console).run desk
      ((startIssueWorkflow console 42).run desk Desk.empty).state).state).1 rfl

/-- C10: every `reportsMsg` returned by `listReportsPendingForApproval` and every
`issuesMsg` returned by `listAllIssues` has `err` nil, whatever the store answers; when
the store call fails the returned message is an `errorMsg` with a non-nil error, not a
`reportsMsg` or an `issuesMsg`. -/
theorem list_messages_never_carry_an_error (m : App X) (o : Collab X σ) (s : σ) :
    (∀ reports err,
      ((listReportsPendingForApproval m).run o s).result = .reportsMsg reports err →
      err = none) ∧
    (∀ issues err,
      ((listAllIssues m).run o s).result = .issuesMsg issues err → err = none) ∧
    (∀ e, (o .GetReportsPendingForApproval s).1 = .error e →
      ∃ err : GoError,
        ((listReportsPendingForApproval m).run o s).result = .errorMsg (some err)) ∧
    (∀ e, (o .GetAllIssues s).1 = .error e →
      ∃ err : GoError, ((listAllIssues m).run o s).result = .errorMsg (some err)) := by
  refine ⟨?_, ?_, ?_, ?_⟩
  · intro reports err
    simp only [listReportsPendingForApproval, app.GetReportsPendingForApproval, bind,
      Prog.bind, pure, Prog.run_call]
    cases (o .GetReportsPendingForApproval s).1 <;> simp
    intro _ h
    exact h.symm
  · intro issues err
    simp only [listAllIssues, app.GetAllIssues, bind, Prog.bind, pure, Prog.run_call]
    cases (o .GetAllIssues s).1 <;> simp
    intro _ h
    exact h.symm
  · intro e h
    exact ⟨fmt.Errorf "error listing reports pending for approval: " e, by
      simp [listReportsPendingForApproval, app.GetReportsPendingForApproval, bind, Prog.bind,
        pure, h]⟩
  · intro e h
    exact ⟨fmt.Errorf "error listing issues: " e, by
      simp [listAllIssues, app.GetAllIssues, bind, Prog.bind, pure, h]⟩

/-- C10, during an outage: the failed issue listing comes back as an `errorMsg`, so no
`issuesMsg` with a non-nil `err` is ever seen. -/
theorem list_messages_never_carry_an_error_witness :
    ∃ err : GoError, ((listAllIssues console).run outage ()).result = .errorMsg (some err) :=
  (list_messages_never_carry_an_error console outage ()).2.2.2
    (.external "connection refused") rfl

end theorems

end Tui
